import Mathlib

/-!
Shallow embedding of the go-docuchat server (src/main.go, final revision,
together with the earlier draft src/unnamed/part_000 where the claims
reference it).  External collaborators (the OpenAI embedding and chat
endpoints, the qdrant vector store, the PDF extractor, the uploaded-file
save) are modelled as oracles passed to the handlers; each handler threads
an explicit trace of the network calls it issues, the filesystem is a list
of paths, and the vector store is an explicit state.
-/

namespace DocuChat

/-- Embedding vectors ([]float32 in the source).  The handlers never inspect
the entries, they only pipe the vector from the embedding response into the
search / upsert request, so entries are modelled as integers. -/
abbrev Vec := List Int

/-- A qdrant payload value (pb.Value).  The handlers only ever read string
values; every other kind is collapsed into `otherValue`. -/
inductive PbValue where
  | stringValue (s : String)
  | otherValue
deriving DecidableEq, Repr

/-- pb.Value.GetStringValue: returns the string when the kind is
StringValue and the empty string otherwise (also on a nil receiver). -/
def PbValue.getStringValue : PbValue → String
  | .stringValue s => s
  | .otherValue => ""

/-- A point payload: map from string keys to values. -/
abbrev Payload := List (String × PbValue)

/-- Go map indexing with the comma-ok idiom: `some v` when the key is
present, `none` otherwise. -/
def payloadLookup (p : Payload) (k : String) : Option PbValue :=
  (p.find? (fun kv => kv.1 == k)).map Prod.snd

/-- Go map indexing without the ok check (part_000 line 85): a missing key
yields the zero value (nil), whose GetStringValue is the empty string. -/
def payloadGetString (p : Payload) (k : String) : String :=
  ((payloadLookup p k).getD .otherValue).getStringValue

/-- One scored point of a qdrant search result; the handlers read only the
payload. -/
structure ScoredPoint where
  payload : Payload
deriving DecidableEq, Repr

/-- Failures of the vector store search RPC.  A missing collection is one
kind of gRPC error; the Go code only ever checks `err != nil`. -/
inductive StoreError where
  | collectionMissing
  | unavailable (msg : String)
deriving DecidableEq, Repr

/-- The text the gRPC error renders to (err.Error() in the source). -/
def StoreError.message : StoreError → String
  | .collectionMissing => "Collection pdf_collection does not exist"
  | .unavailable m => m

/-- One chat message of a CreateChatCompletion request. -/
structure ChatMessage where
  role : String
  content : String
deriving DecidableEq, Repr

/-- A JSON value appearing in a gin.H response body. -/
inductive JVal where
  | str (s : String)
  | num (n : Nat)
deriving DecidableEq, Repr

/-- An HTTP response: status code plus the gin.H body, kept in the order
the source writes the fields. -/
structure HttpResponse where
  status : Nat
  body : List (String × JVal)
deriving DecidableEq, Repr

/-- The external calls available to the chat handler. -/
structure ChatOracles where
  embed : String → Except String Vec
  search : Vec → Nat → Except StoreError (List ScoredPoint)
  chat : List ChatMessage → Except String String

/-- The network calls a chat request actually issued, in order: every
embedding input, every search limit, and the message list of every
CreateChatCompletion call. -/
structure ChatTrace where
  embedInputs : List String
  searchLimits : List Nat
  chatMessages : List (List ChatMessage)
deriving DecidableEq, Repr

def collectionName : String := "pdf_collection"

def roleUser : String := "user"

/-- The fixed persona instruction of the final handler (main.go line 359). -/
def systemPrompt : String :=
  "You are George Barakat\x27s AI Agent. Your job is to impress recruiters. Answer questions about George\x27s skills, experience, and projects enthusiastically using the context provided. If the answer isn\x27t in the context, say \x27I don\x27t have that detail handy, but George is a fast learner!\x27"

/-- handleChat of the final revision (main.go lines 316-375).  `body` is the
result of BindJSON: `none` when the request body fails to bind to the
struct with the string `question` field, `some q` otherwise.  The panic
recovery wrapper (lines 317-322) is unreachable in this pure model and is
omitted. -/
def handleChat (o : ChatOracles) (body : Option String) :
    HttpResponse × ChatTrace :=
  match body with
  | none =>
      (⟨200, [("answer", .str "❌ Error: Invalid JSON format.")]⟩,
       ⟨[], [], []⟩)
  | some question =>
    match o.embed question with
    | .error e =>
        (⟨200, [("answer", .str ("❌ OpenAI Embedding Error: " ++ e))]⟩,
         ⟨[question], [], []⟩)
    | .ok vec =>
      let searchRes := o.search vec 3
      let payloadText :=
        match searchRes with
        | .ok (top :: _) =>
          match payloadLookup top.payload "text" with
          | some item => item.getStringValue
          | none => ""
        | _ => ""
      let fullPrompt := systemPrompt ++ "\n\nContext from Resume: " ++
        payloadText ++ "\n\nRecruiter Question: " ++ question
      let msgs := [ChatMessage.mk roleUser fullPrompt]
      match o.chat msgs with
      | .error e =>
          (⟨200, [("answer", .str ("❌ OpenAI Chat Error: " ++ e))]⟩,
           ⟨[question], [3], [msgs]⟩)
      | .ok content =>
          (⟨200, [("answer", .str content)]⟩, ⟨[question], [3], [msgs]⟩)

/-- handleChat of the earlier draft src/unnamed/part_000 (lines 46-103). -/
def handleChatP0 (o : ChatOracles) (body : Option String) :
    HttpResponse × ChatTrace :=
  match body with
  | none => (⟨400, [("error", .str "Invalid JSON")]⟩, ⟨[], [], []⟩)
  | some question =>
    match o.embed question with
    | .error e =>
        (⟨500, [("error", .str ("OpenAI Error: " ++ e))]⟩, ⟨[question], [], []⟩)
    | .ok questionVector =>
      match o.search questionVector 1 with
      | .error e =>
          (⟨500, [("error", .str ("Qdrant Error: " ++ e.message))]⟩,
           ⟨[question], [1], []⟩)
      | .ok [] =>
          (⟨200, [("answer", .str "I don\x27t have enough information to answer that.")]⟩,
           ⟨[question], [1], []⟩)
      | .ok (top :: _) =>
        let foundText := payloadGetString top.payload "text"
        let prompt := "Context: " ++ foundText ++ "\n\nQuestion: " ++ question ++
          "\n\nAnswer based ONLY on the context."
        let msgs := [ChatMessage.mk roleUser prompt]
        match o.chat msgs with
        | .error e =>
            (⟨500, [("error", .str ("Chat Error: " ++ e))]⟩,
             ⟨[question], [1], [msgs]⟩)
        | .ok content =>
            (⟨200, [("answer", .str content), ("context", .str foundText)]⟩,
             ⟨[question], [1], [msgs]⟩)

/-- qdrant distance metric of a collection. -/
inductive Distance where
  | cosine
  | euclid
deriving DecidableEq, Repr

/-- Parameters of a CreateCollection request: name, vector size, metric. -/
structure CollectionCfg where
  name : String
  size : Nat
  distance : Distance
deriving DecidableEq, Repr

/-- A point persisted in the vector store. -/
structure StoredPoint where
  collection : String
  vector : Vec
  payload : Payload
deriving DecidableEq, Repr

/-- The vector store state: registered collections and stored points. -/
structure Store where
  collections : List CollectionCfg
  points : List StoredPoint
deriving DecidableEq, Repr

def Store.hasCollection (s : Store) (name : String) : Bool :=
  s.collections.any (fun c => c.name == name)

/-- CollectionsClient.Create: registers the collection when absent and
returns an already-exists error when present (state unchanged). -/
def Store.create (s : Store) (cfg : CollectionCfg) : Store × Except String Unit :=
  if s.hasCollection cfg.name then
    (s, .error "already exists")
  else
    ({ s with collections := cfg :: s.collections }, .ok ())

/-- PointsClient.Upsert: stores the point when the collection exists,
errors otherwise. -/
def Store.upsert (s : Store) (pt : StoredPoint) : Store × Except String Unit :=
  if s.hasCollection pt.collection then
    ({ s with points := pt :: s.points }, .ok ())
  else
    (s, .error "collection missing")

/-- What the ingestion code does with collection creation (main.go
line 401): it calls Create and discards both the response and the error,
so an already-exists outcome never aborts the pipeline. -/
def ensureCollection (s : Store) (cfg : CollectionCfg) : Store :=
  (s.create cfg).1

/-- The collection parameters the final handler creates with
(main.go lines 401-407): size 1536, cosine distance. -/
def pdfCollectionCfg : CollectionCfg := ⟨collectionName, 1536, .cosine⟩

/-- os.Remove: drops the path from the filesystem. -/
def fsRemove (fs : List String) (p : String) : List String :=
  fs.filter (fun q => q != p)

/-- The external calls available to the ingest handler of the final
revision (SaveUploadedFile has its error discarded there, so it is not an
oracle: it just writes the file). -/
structure IngestOracles where
  extractPdf : String → Except String String
  embed : String → Except String Vec

/-- The network calls an ingest request actually issued. -/
structure IngestTrace where
  embedInputs : List String
  createReqs : List CollectionCfg
  upsertPayloads : List Payload
deriving DecidableEq, Repr

/-- Everything an ingest request produces: the HTTP response, the
filesystem after the handler returns, the vector store state, and the
trace of calls. -/
structure IngestResult where
  resp : HttpResponse
  fs : List String
  store : Store
  trace : IngestTrace
deriving DecidableEq, Repr

/-- handleIngest of the final revision (main.go lines 377-418).
`formFile` is the result of c.FormFile: `none` when no file was uploaded,
`some filename` otherwise.  filepath.Join(".", filename) cleans to
filename.  SaveUploadedFile writes the temp copy (its error is discarded
by the source); `defer os.Remove(tempPath)` removes it on every exit path
below, which the model applies at each return. -/
def handleIngest (o : IngestOracles) (formFile : Option String)
    (fs : List String) (st : Store) : IngestResult :=
  match formFile with
  | none =>
      ⟨⟨200, [("status", .str "error"), ("message", .str "No file uploaded")]⟩,
       fs, st, ⟨[], [], []⟩⟩
  | some filename =>
    let tempPath := filename
    let fs1 := tempPath :: fsRemove fs tempPath
    match o.extractPdf tempPath with
    | .error _ =>
        ⟨⟨200, [("status", .str "error"), ("message", .str "PDF Read Error")]⟩,
         fsRemove fs1 tempPath, st, ⟨[], [], []⟩⟩
    | .ok content =>
      match o.embed content with
      | .error e =>
          ⟨⟨200, [("status", .str "error"),
                  ("message", .str ("Embedding Error: " ++ e))]⟩,
           fsRemove fs1 tempPath, st, ⟨[content], [], []⟩⟩
      | .ok vec =>
        let st1 := ensureCollection st pdfCollectionCfg
        let payload : Payload := [("text", .stringValue content)]
        let st2 := (st1.upsert ⟨collectionName, vec, payload⟩).1
        ⟨⟨200, [("status", .str "success"), ("message", .str "File processed!")]⟩,
         fsRemove fs1 tempPath, st2, ⟨[content], [pdfCollectionCfg], [payload]⟩⟩

/-- The external calls available to the ingest handler of the part_000
draft, which does check the SaveUploadedFile error. -/
structure IngestOraclesP0 where
  save : String → Except String Unit
  extractPdf : String → Except String String
  embed : String → Except String Vec

/-- handleIngest of the earlier draft src/unnamed/part_000
(lines 107-153).  There is no CreateCollection call in this draft; the
upsert error is discarded.  The deferred os.Remove is registered after the
save-error check, so a failed save returns before any removal. -/
def handleIngestP0 (o : IngestOraclesP0) (formFile : Option String)
    (fs : List String) (st : Store) : IngestResult :=
  match formFile with
  | none =>
      ⟨⟨400, [("error", .str "No file uploaded")]⟩, fs, st, ⟨[], [], []⟩⟩
  | some filename =>
    let tempPath := filename
    match o.save tempPath with
    | .error _ =>
        ⟨⟨500, [("error", .str "Could not save file")]⟩, fs, st, ⟨[], [], []⟩⟩
    | .ok _ =>
      let fs1 := tempPath :: fsRemove fs tempPath
      match o.extractPdf tempPath with
      | .error _ =>
          ⟨⟨500, [("error", .str "Could not read PDF")]⟩,
           fsRemove fs1 tempPath, st, ⟨[], [], []⟩⟩
      | .ok content =>
        match o.embed content with
        | .error _ =>
            ⟨⟨500, [("error", .str "OpenAI Error")]⟩,
             fsRemove fs1 tempPath, st, ⟨[content], [], []⟩⟩
        | .ok vec =>
          let payload : Payload := [("text", .stringValue content)]
          let st1 := (st.upsert ⟨collectionName, vec, payload⟩).1
          ⟨⟨200, [("status", .str "success"),
                  ("message", .str "File ingested successfully"),
                  ("chars", .num content.utf8ByteSize)]⟩,
           fsRemove fs1 tempPath, st1, ⟨[content], [], [payload]⟩⟩

/-- Substring containment, used to state that an assembled prompt carries
a given piece of text. -/
def strContains (s sub : String) : Prop := ∃ a b, s = a ++ sub ++ b

/-! ## Theorems for the claims -/

/-- C10: when the request body fails to bind as JSON with a string
`question` field, the query operation immediately returns the fixed
invalid-input response (the final handler encodes it as an HTTP 200 whose
answer text reports the invalid JSON), and the trace is empty: no
embedding, search, or generation call is issued. -/
theorem C10_invalid_body_rejected_before_network (o : ChatOracles) :
    handleChat o none =
      (⟨200, [("answer", .str "❌ Error: Invalid JSON format.")]⟩,
       ⟨[], [], []⟩) := rfl

/-- C2 counterexample: a syntactically valid body whose question is the
empty string is not rejected: the handler issues the embedding network
call with the empty question, and a whitespace-only question is answered
normally instead of being refused as InvalidQuery. -/
theorem C2_counterexample :
    ((handleChat
        ⟨fun _ => .ok [], fun _ _ => .ok [], fun _ => .ok "generated"⟩
        (some "")).2.embedInputs = [""]) ∧
    ((handleChat
        ⟨fun _ => .ok [], fun _ _ => .ok [], fun _ => .ok "generated"⟩
        (some "   ")).1 = ⟨200, [("answer", .str "generated")]⟩) :=
  ⟨rfl, rfl⟩

/-- C2 amended: the query operation performs no validation of the question
text.  Every question that binds from the body, including the empty and
the whitespace-only one, is sent to the embedding endpoint as-is: the
embedding call is issued with exactly the bound question on every path.
Only a body that fails JSON binding is rejected before any network call
(see the C10 theorem). -/
theorem C2_question_never_validated (o : ChatOracles) (q : String) :
    (handleChat o (some q)).2.embedInputs = [q] := by
  simp only [handleChat]
  split
  · rfl
  · split <;> rfl

/-- C1 counterexample: in the final handler a query whose retrieval step
returns an empty Retrieval Result does not short-circuit to a fixed
"no knowledge" answer: the Generation Client is called once (with empty
context) and the response carries whatever text it generated. -/
theorem C1_counterexample :
    ((handleChat
        ⟨fun _ => .ok [], fun _ _ => .ok [], fun _ => .ok "some generated text"⟩
        (some "What do you know?")).2.chatMessages.length = 1) ∧
    ((handleChat
        ⟨fun _ => .ok [], fun _ _ => .ok [], fun _ => .ok "some generated text"⟩
        (some "What do you know?")).1 =
      ⟨200, [("answer", .str "some generated text")]⟩) :=
  ⟨rfl, rfl⟩

/-- C1 amended: when the retrieval step yields a missing collection (a
search error) or an empty Retrieval Result, the final query handler still
succeeds (HTTP 200) but does so by invoking the Generation Client exactly
once with an empty context in the prompt, rather than returning a
deterministic "no knowledge available yet" answer with zero generation
calls.  (The part_000 draft did return the fixed answer with zero
generation calls on the empty-result path, and an error response on the
missing-collection path.) -/
theorem C1_empty_retrieval_still_generates (o : ChatOracles) (q : String)
    (v : Vec)
    (hemb : o.embed q = .ok v)
    (hsearch : o.search v 3 = .error .collectionMissing ∨
               o.search v 3 = .ok []) :
    ((handleChat o (some q)).2.chatMessages =
      [[⟨roleUser, systemPrompt ++ "\n\nContext from Resume: " ++ "" ++
          "\n\nRecruiter Question: " ++ q⟩]]) ∧
    (handleChat o (some q)).1.status = 200 := by
  rcases hsearch with hsearch | hsearch <;>
    simp only [handleChat, hemb, hsearch] <;>
    split <;> exact ⟨rfl, rfl⟩

/-- C1 witness. -/
theorem C1_empty_retrieval_still_generates_witness :
    ((handleChat
        ⟨fun _ => .ok [], fun _ _ => .error .collectionMissing, fun _ => .ok "a"⟩
        (some "q")).2.chatMessages =
      [[⟨roleUser, systemPrompt ++ "\n\nContext from Resume: " ++ "" ++
          "\n\nRecruiter Question: " ++ "q"⟩]]) ∧
    (handleChat
        ⟨fun _ => .ok [], fun _ _ => .error .collectionMissing, fun _ => .ok "a"⟩
        (some "q")).1.status = 200 :=
  C1_empty_retrieval_still_generates
    ⟨fun _ => .ok [], fun _ _ => .error .collectionMissing, fun _ => .ok "a"⟩
    "q" [] rfl (Or.inl rfl)

/-- C3 counterexample: in the final handler a query that reaches
generation and succeeds returns only the generated answer; the response
body carries no `context` field even though a context was retrieved and
used to build the prompt. -/
theorem C3_counterexample :
    ((handleChat
        ⟨fun _ => .ok [],
         fun _ _ => .ok [⟨[("text", .stringValue "stored passage")]⟩],
         fun _ => .ok "an answer"⟩ (some "q")).1 =
      ⟨200, [("answer", .str "an answer")]⟩) ∧
    ((handleChat
        ⟨fun _ => .ok [],
         fun _ _ => .ok [⟨[("text", .stringValue "stored passage")]⟩],
         fun _ => .ok "an answer"⟩ (some "q")).1.body.find?
        (fun kv => kv.1 == "context") = none) ∧
    ((handleChat
        ⟨fun _ => .ok [],
         fun _ _ => .ok [⟨[("text", .stringValue "stored passage")]⟩],
         fun _ => .ok "an answer"⟩ (some "q")).2.chatMessages.length = 1) :=
  ⟨rfl, rfl, rfl⟩

/-- C3 amended: in the part_000 draft, every query that reaches the
generation step and succeeds returns both the generated answer and the
exact context text used to build the prompt; the final handler (main.go)
returns only the answer, with no context field (see the counterexample). -/
theorem C3_p0_returns_answer_with_context (o : ChatOracles) (q : String)
    (v : Vec) (top : ScoredPoint) (rest : List ScoredPoint) (ans : String)
    (hemb : o.embed q = .ok v)
    (hsearch : o.search v 1 = .ok (top :: rest))
    (hchat : o.chat [⟨roleUser,
        "Context: " ++ payloadGetString top.payload "text" ++
        "\n\nQuestion: " ++ q ++
        "\n\nAnswer based ONLY on the context."⟩] = .ok ans) :
    (handleChatP0 o (some q)).1 =
      ⟨200, [("answer", .str ans),
             ("context", .str (payloadGetString top.payload "text"))]⟩ := by
  simp only [handleChatP0, hemb, hsearch, hchat]

/-- C3 witness. -/
theorem C3_p0_returns_answer_with_context_witness :
    (handleChatP0
        ⟨fun _ => .ok [],
         fun _ _ => .ok [⟨[("text", .stringValue "ctx")]⟩],
         fun _ => .ok "ans"⟩ (some "q")).1 =
      ⟨200, [("answer", .str "ans"), ("context", .str "ctx")]⟩ :=
  C3_p0_returns_answer_with_context
    ⟨fun _ => .ok [],
     fun _ _ => .ok [⟨[("text", .stringValue "ctx")]⟩],
     fun _ => .ok "ans"⟩
    "q" [] ⟨[("text", .stringValue "ctx")]⟩ [] "ans" rfl rfl rfl

/-- C4: for every query with a non-empty retrieval result whose top chunk
carries a string `text` payload, the single user message passed to the
Generation Client contains the retrieved context text, the question text,
and the fixed instruction `systemPrompt` (which tells the model to answer
from the provided context and to state explicitly when the answer is not
in the context). -/
theorem C4_prompt_contains_context_question_instruction
    (o : ChatOracles) (q : String) (v : Vec) (top : ScoredPoint)
    (rest : List ScoredPoint) (t : String)
    (hemb : o.embed q = .ok v)
    (hsearch : o.search v 3 = .ok (top :: rest))
    (htext : payloadLookup top.payload "text" = some (.stringValue t)) :
    ∃ p, (handleChat o (some q)).2.chatMessages = [[⟨roleUser, p⟩]] ∧
      strContains p t ∧ strContains p q ∧ strContains p systemPrompt := by
  refine ⟨systemPrompt ++ "\n\nContext from Resume: " ++ t ++
    "\n\nRecruiter Question: " ++ q, ?_, ?_, ?_, ?_⟩
  · simp only [handleChat, hemb, hsearch, htext, PbValue.getStringValue]
    split <;> rfl
  · exact ⟨systemPrompt ++ "\n\nContext from Resume: ",
      "\n\nRecruiter Question: " ++ q, by simp [String.append_assoc]⟩
  · exact ⟨systemPrompt ++ "\n\nContext from Resume: " ++ t ++
      "\n\nRecruiter Question: ", "",
      by simp [String.append_assoc, String.append_empty]⟩
  · exact ⟨"", "\n\nContext from Resume: " ++ t ++
      "\n\nRecruiter Question: " ++ q,
      by simp [String.append_assoc, String.empty_append]⟩

/-- C4 witness. -/
theorem C4_prompt_contains_context_question_instruction_witness :
    ∃ p, (handleChat
        ⟨fun _ => .ok [],
         fun _ _ => .ok [⟨[("text", .stringValue "The capital of France is Paris.")]⟩],
         fun _ => .ok "Paris"⟩
        (some "What is the capital of France?")).2.chatMessages =
      [[⟨roleUser, p⟩]] ∧
      strContains p "The capital of France is Paris." ∧
      strContains p "What is the capital of France?" ∧
      strContains p systemPrompt :=
  C4_prompt_contains_context_question_instruction
    ⟨fun _ => .ok [],
     fun _ _ => .ok [⟨[("text", .stringValue "The capital of France is Paris.")]⟩],
     fun _ => .ok "Paris"⟩
    "What is the capital of France?" []
    ⟨[("text", .stringValue "The capital of France is Paris.")]⟩ []
    "The capital of France is Paris." rfl rfl rfl

/-- C9: when the top retrieved chunk has no `text` key, or a non-string
value under it, the final query handler does not fail: the context is
treated as the empty string, the prompt is assembled with it, and the
response is still a structured HTTP 200 answer. -/
theorem C9_missing_text_payload_is_empty_context
    (o : ChatOracles) (q : String) (v : Vec) (top : ScoredPoint)
    (rest : List ScoredPoint)
    (hemb : o.embed q = .ok v)
    (hsearch : o.search v 3 = .ok (top :: rest))
    (htext : payloadLookup top.payload "text" = none ∨
             payloadLookup top.payload "text" = some .otherValue) :
    ((handleChat o (some q)).2.chatMessages =
      [[⟨roleUser, systemPrompt ++ "\n\nContext from Resume: " ++ "" ++
          "\n\nRecruiter Question: " ++ q⟩]]) ∧
    ∃ a, (handleChat o (some q)).1 = ⟨200, [("answer", .str a)]⟩ := by
  rcases htext with htext | htext <;>
    simp only [handleChat, hemb, hsearch, htext, PbValue.getStringValue] <;>
    split <;>
    exact ⟨rfl, _, rfl⟩

/-- C9 witness. -/
theorem C9_missing_text_payload_is_empty_context_witness :
    ((handleChat
        ⟨fun _ => .ok [],
         fun _ _ => .ok [⟨[("source", .stringValue "resume.pdf")]⟩],
         fun _ => .ok "ans"⟩ (some "q")).2.chatMessages =
      [[⟨roleUser, systemPrompt ++ "\n\nContext from Resume: " ++ "" ++
          "\n\nRecruiter Question: " ++ "q"⟩]]) ∧
    ∃ a, (handleChat
        ⟨fun _ => .ok [],
         fun _ _ => .ok [⟨[("source", .stringValue "resume.pdf")]⟩],
         fun _ => .ok "ans"⟩ (some "q")).1 = ⟨200, [("answer", .str a)]⟩ :=
  C9_missing_text_payload_is_empty_context
    ⟨fun _ => .ok [],
     fun _ _ => .ok [⟨[("source", .stringValue "resume.pdf")]⟩],
     fun _ => .ok "ans"⟩
    "q" [] ⟨[("source", .stringValue "resume.pdf")]⟩ [] rfl rfl (Or.inl rfl)

/-- C5 counterexample: when text extraction succeeds with the empty
string, the final ingest handler does not fail with EmptyDocument: it
embeds the empty string, creates the collection, stores a chunk whose
text payload is empty, and reports success. -/
theorem C5_counterexample :
    handleIngest ⟨fun _ => .ok "", fun _ => .ok [1]⟩
        (some "doc.pdf") [] ⟨[], []⟩ =
      ⟨⟨200, [("status", .str "success"), ("message", .str "File processed!")]⟩,
       [],
       ⟨[pdfCollectionCfg], [⟨collectionName, [1], [("text", .stringValue "")]⟩]⟩,
       ⟨[""], [pdfCollectionCfg], [[("text", .stringValue "")]]⟩⟩ := rfl

/-- C5 amended: ingestion does not reject empty extracted text.  When
extraction succeeds with the empty string (and the embedding call
succeeds), the pipeline proceeds to the embedding and upsert stages — the
embedding endpoint is called on the empty string and a chunk with an
empty text payload is upserted — and the handler reports success. -/
theorem C5_empty_text_still_ingested (o : IngestOracles) (file : String)
    (v : Vec) (fs : List String) (st : Store)
    (hext : o.extractPdf file = .ok "")
    (hemb : o.embed "" = .ok v) :
    ((handleIngest o (some file) fs st).resp =
      ⟨200, [("status", .str "success"), ("message", .str "File processed!")]⟩) ∧
    ((handleIngest o (some file) fs st).trace.embedInputs = [""]) ∧
    ((handleIngest o (some file) fs st).trace.upsertPayloads =
      [[("text", .stringValue "")]]) := by
  simp [handleIngest, hext, hemb]

/-- C5 witness. -/
theorem C5_empty_text_still_ingested_witness :
    ((handleIngest ⟨fun _ => .ok "", fun _ => .ok [2]⟩
        (some "empty.pdf") [] ⟨[], []⟩).resp =
      ⟨200, [("status", .str "success"), ("message", .str "File processed!")]⟩) ∧
    ((handleIngest ⟨fun _ => .ok "", fun _ => .ok [2]⟩
        (some "empty.pdf") [] ⟨[], []⟩).trace.embedInputs = [""]) ∧
    ((handleIngest ⟨fun _ => .ok "", fun _ => .ok [2]⟩
        (some "empty.pdf") [] ⟨[], []⟩).trace.upsertPayloads =
      [[("text", .stringValue "")]]) :=
  C5_empty_text_still_ingested ⟨fun _ => .ok "", fun _ => .ok [2]⟩
    "empty.pdf" [2] [] ⟨[], []⟩ rfl rfl

/-- C6: collection creation is effectively idempotent for ingestion:
running the create-and-discard step twice with identical parameters
leaves the store as after the first run and the collection in place, and
an ingestion against a store where the collection already exists still
completes with the success response — the already-exists outcome never
aborts the pipeline, because the source discards the Create result. -/
theorem C6_ensure_collection_idempotent (st : Store) (cfg : CollectionCfg)
    (o : IngestOracles) (file content : String) (v : Vec) (fs : List String)
    (hext : o.extractPdf file = .ok content)
    (hemb : o.embed content = .ok v) :
    (ensureCollection (ensureCollection st cfg) cfg = ensureCollection st cfg) ∧
    ((ensureCollection st cfg).hasCollection cfg.name = true) ∧
    ((handleIngest o (some file) fs (ensureCollection st pdfCollectionCfg)).resp =
      ⟨200, [("status", .str "success"), ("message", .str "File processed!")]⟩) := by
  refine ⟨?_, ?_, ?_⟩
  · unfold ensureCollection Store.create
    cases h : st.hasCollection cfg.name
    · simp [h, Store.hasCollection]
    · simp [h]
  · unfold ensureCollection Store.create
    cases h : st.hasCollection cfg.name
    · simp [h, Store.hasCollection]
    · simp [h]
  · simp only [handleIngest, hext, hemb]

/-- C6 witness. -/
theorem C6_ensure_collection_idempotent_witness :
    (ensureCollection (ensureCollection ⟨[], []⟩ pdfCollectionCfg) pdfCollectionCfg =
      ensureCollection ⟨[], []⟩ pdfCollectionCfg) ∧
    ((ensureCollection ⟨[], []⟩ pdfCollectionCfg).hasCollection
      pdfCollectionCfg.name = true) ∧
    ((handleIngest ⟨fun _ => .ok "text", fun _ => .ok [3]⟩ (some "f.pdf") []
        (ensureCollection ⟨[], []⟩ pdfCollectionCfg)).resp =
      ⟨200, [("status", .str "success"), ("message", .str "File processed!")]⟩) :=
  C6_ensure_collection_idempotent ⟨[], []⟩ pdfCollectionCfg
    ⟨fun _ => .ok "text", fun _ => .ok [3]⟩ "f.pdf" "text" [3] [] rfl rfl

/-- C7: for every ingestion request in which the temporary on-disk copy
of the uploaded file is created (a file was uploaded), the temporary file
is absent from the filesystem when the final handler returns, on every
exit path — extraction failure, embedding failure, or success — because
the deferred os.Remove is registered right after the save. -/
theorem C7_temp_file_removed_on_every_exit (o : IngestOracles)
    (file : String) (fs : List String) (st : Store) :
    file ∉ (handleIngest o (some file) fs st).fs := by
  simp only [handleIngest]
  split
  · simp [fsRemove, List.mem_filter]
  · split <;> simp [fsRemove, List.mem_filter]

/-- C8 counterexample: the final ingest handler's success response
reports only a status and a message; it contains no count of ingested
characters. -/
theorem C8_counterexample :
    ((handleIngest ⟨fun _ => .ok "resume text", fun _ => .ok [1]⟩
        (some "resume.pdf") [] ⟨[], []⟩).resp =
      ⟨200, [("status", .str "success"), ("message", .str "File processed!")]⟩) ∧
    ((handleIngest ⟨fun _ => .ok "resume text", fun _ => .ok [1]⟩
        (some "resume.pdf") [] ⟨[], []⟩).resp.body.find?
        (fun kv => kv.1 == "chars") = none) :=
  ⟨rfl, rfl⟩

/-- C8 amended: the part_000 draft's success output does include the
count of ingested characters (Go len of the extracted text, its byte
length) in its `chars` field; the final handler's success output carries
only a status and a message, with no count (see the counterexample). -/
theorem C8_p0_reports_char_count (o : IngestOraclesP0) (file content : String)
    (v : Vec) (fs : List String) (st : Store)
    (hsave : o.save file = .ok ())
    (hext : o.extractPdf file = .ok content)
    (hemb : o.embed content = .ok v) :
    (handleIngestP0 o (some file) fs st).resp =
      ⟨200, [("status", .str "success"),
             ("message", .str "File ingested successfully"),
             ("chars", .num content.utf8ByteSize)]⟩ := by
  simp only [handleIngestP0, hsave, hext, hemb]

/-- C8 witness. -/
theorem C8_p0_reports_char_count_witness :
    (handleIngestP0
        ⟨fun _ => .ok (), fun _ => .ok "abc", fun _ => .ok [1]⟩
        (some "doc.pdf") [] ⟨[], []⟩).resp =
      ⟨200, [("status", .str "success"),
             ("message", .str "File ingested successfully"),
             ("chars", .num 3)]⟩ :=
  C8_p0_reports_char_count
    ⟨fun _ => .ok (), fun _ => .ok "abc", fun _ => .ok [1]⟩
    "doc.pdf" "abc" [1] [] ⟨[], []⟩ rfl rfl rfl

end DocuChat
